import Mathlib

/-
Verification of the migration-configuration resolver in
`sqlx-core/src/config/migrate.rs`.

The Rust code reads two process environment variables,
`SQLX_MIGRATIONS_TABLE` and `SQLX_MIGRATIONS_SCHEMA` (the specification
refers to them as `MIGRATIONS_TABLE` and `MIGRATIONS_SCHEMA`).  We model
the environment as an explicit value passed to every operation that reads
it, so that construction-time reads and call-time reads can be given
different environment states.
-/

namespace Sqlx

/-- The process environment, restricted to the two variables the code
reads: `SQLX_MIGRATIONS_TABLE` and `SQLX_MIGRATIONS_SCHEMA`.  A `none`
field models an unset variable. -/
structure Env where
  sqlx_migrations_table : Option String
  sqlx_migrations_schema : Option String
deriving DecidableEq, Repr

/-- Rust enum `DefaultMigrationType` from migrate.rs. -/
inductive DefaultMigrationType where
  | Inferred
  | Simple
  | Reversible
deriving DecidableEq, Repr

/-- Rust enum `DefaultVersioning` from migrate.rs. -/
inductive DefaultVersioning where
  | Inferred
  | Timestamp
  | Sequential
deriving DecidableEq, Repr

/-- Rust struct `MigrationDefaults` from migrate.rs. -/
structure MigrationDefaults where
  migration_type : DefaultMigrationType
  migration_versioning : DefaultVersioning
deriving DecidableEq, Repr

/-- Rust struct `Postgres` from migrate.rs: the PostgreSQL-specific
migration configuration, holding an optional schema override. -/
structure Postgres where
  schema : Option String
deriving DecidableEq, Repr

/-- Rust struct `Drivers` from migrate.rs. -/
structure Drivers where
  postgres : Postgres
deriving DecidableEq, Repr

/-- Rust struct `Config` from migrate.rs.  The Rust fields `table_name`
and `migrations_dir` are named `table_name_opt` and `migrations_dir_opt`
here because the resolver methods of the same names live in the same
namespace in Lean.  `create_schemas` and `ignored_chars` are `BTreeSet`s
in Rust; the claims under verification do not depend on their set
structure, so lists suffice. -/
structure Config where
  create_schemas : List String
  table_name_opt : Option String
  migrations_dir_opt : Option String
  ignored_chars : List Char
  defaults : MigrationDefaults
  drivers : Drivers
deriving DecidableEq, Repr

/-- `impl Default for MigrationDefaults` (derived in Rust): both fields
default to `Inferred`, the `#[default]` variant of each enum. -/
def MigrationDefaults.default : MigrationDefaults :=
  { migration_type := .Inferred, migration_versioning := .Inferred }

/-- `impl Default for Postgres` in migrate.rs: reads
`SQLX_MIGRATIONS_SCHEMA` from the environment at construction time. -/
def Postgres.default (env : Env) : Postgres :=
  { schema := env.sqlx_migrations_schema }

/-- `impl Default for Drivers` (derived in Rust): defaults the `postgres`
field, which reads the environment at construction time. -/
def Drivers.default (env : Env) : Drivers :=
  { postgres := Postgres.default env }

/-- `impl Default for Config` in migrate.rs: reads
`SQLX_MIGRATIONS_TABLE` at construction time into `table_name`, and
defaults `drivers` (which reads `SQLX_MIGRATIONS_SCHEMA`). -/
def Config.default (env : Env) : Config :=
  { create_schemas := []
    table_name_opt := env.sqlx_migrations_table
    migrations_dir_opt := none
    ignored_chars := []
    defaults := MigrationDefaults.default
    drivers := Drivers.default env }

/-- `Config::migrations_dir` in migrate.rs:
`self.migrations_dir.as_deref().unwrap_or("migrations")`. -/
def Config.migrations_dir (c : Config) : String :=
  c.migrations_dir_opt.getD "migrations"

/-- `Config::postgres_schema` in migrate.rs: the explicit
`drivers.postgres.schema` value, or else the `SQLX_MIGRATIONS_SCHEMA`
environment variable read at call time. -/
def Config.postgres_schema (c : Config) (env : Env) : Option String :=
  (c.drivers.postgres.schema.map id).orElse fun _ => env.sqlx_migrations_schema

/-- `Config::table_name` in migrate.rs: if `postgres_schema()` resolves a
schema, return `"{schema}.{table}"` with `table` the explicit field or
the constant; otherwise return the explicit field or the constant,
unqualified. -/
def Config.table_name (c : Config) (env : Env) : String :=
  match c.postgres_schema env with
  | some schema =>
    match c.table_name_opt with
    | some table_name => schema ++ "." ++ table_name
    | none => schema ++ "." ++ "_sqlx_migrations"
  | none => c.table_name_opt.getD "_sqlx_migrations"

/-- Character-wise lowercasing, modelling Rust `str::to_lowercase` as
used by `qualified_table_name`.  Rust lowercases each character; for the
comparisons the code performs (against the ASCII strings "postgres" and
"postgresql") the ASCII mapping of `Char.toLower` agrees with the full
Unicode mapping, since no non-ASCII character lowercases to any letter of
those words. -/
def lowercase (s : String) : String :=
  String.mk (s.data.map Char.toLower)

/-- `Config::qualified_table_name` in migrate.rs: for a PostgreSQL kind
(lowercased kind equal to "postgres" or "postgresql"), resolve schema as
explicit config value, else `SQLX_MIGRATIONS_SCHEMA` at call time, else
"public", and table as explicit config value, else
`SQLX_MIGRATIONS_TABLE` at call time, else "_sqlx_migrations", returning
`"{schema}.{table}"`; for any other kind, delegate to `table_name()`. -/
def Config.qualified_table_name (c : Config) (env : Env) (database_kind : String) : String :=
  if lowercase database_kind = "postgres" ∨ lowercase database_kind = "postgresql" then
    let schema :=
      match c.drivers.postgres.schema with
      | some schema => schema
      | none =>
        match env.sqlx_migrations_schema with
        | some env_schema => env_schema
        | none => "public"
    let table :=
      match c.table_name_opt with
      | some table => table
      | none =>
        match env.sqlx_migrations_table with
        | some env_table => env_table
        | none => "_sqlx_migrations"
    schema ++ "." ++ table
  else
    c.table_name env

/-- `Config::to_resolve_config` in migrate.rs builds an external
`ResolveConfig` carrying exactly `self.ignored_chars`.  The external type
is not part of this repository; we model the operation as the
ignored-character collection it passes through. -/
def Config.to_resolve_config (c : Config) : List Char :=
  c.ignored_chars

/-- Modelled from the spec: the versioning-inference rule of
`DefaultVersioning::Inferred`.  The inference routine itself is not under
src/ (only the enum and its documentation are); the documentation and the
spec state: if no migrations exist, or exactly one exists with version 1,
infer Sequential; else if the two most recent versions differ by exactly
1, infer Sequential; otherwise infer Timestamp.  `versions` is the
ordered migration history, oldest first. -/
def inferVersioning (versions : List Int) : DefaultVersioning :=
  match versions.reverse with
  | [] => .Sequential
  | [v] => if v = 1 then .Sequential else .Timestamp
  | a :: b :: _ => if (a - b).natAbs = 1 then .Sequential else .Timestamp

/-- Modelled from the spec: the migration-type inference rule of
`DefaultMigrationType::Inferred`.  The inference routine itself is not
under src/; the documentation states: create the same migration type as
that of the latest existing migration, or Simple otherwise.  `types` is
the ordered migration history, oldest first. -/
def inferMigrationType (types : List DefaultMigrationType) : DefaultMigrationType :=
  match types.reverse with
  | [] => .Simple
  | t :: _ => t

/-- A concrete configuration with every optional field absent, used by
the witness theorems. -/
def emptyConfig : Config :=
  { create_schemas := []
    table_name_opt := none
    migrations_dir_opt := none
    ignored_chars := []
    defaults := MigrationDefaults.default
    drivers := { postgres := { schema := none } } }

/-- The environment state of the test suite: both variables set before
construction. -/
def testEnv : Env :=
  { sqlx_migrations_table := some "test_migrations"
    sqlx_migrations_schema := some "test_schema" }

/-- Helper: `postgres_schema` reads only the schema component of the
environment, so environments agreeing on it give equal results. -/
theorem postgres_schema_depends_only_on_env_schema (c : Config) (e1 e2 : Env)
    (h : e1.sqlx_migrations_schema = e2.sqlx_migrations_schema) :
    c.postgres_schema e1 = c.postgres_schema e2 := by
  simp [Config.postgres_schema, h]

/-- C1: with SQLX_MIGRATIONS_TABLE set to test_migrations and
SQLX_MIGRATIONS_SCHEMA set to test_schema before construction, a
default-constructed Config yields postgres_schema of some test_schema as
claimed, but its table_name is the schema-qualified
test_schema.test_migrations, not the bare test_migrations the claim (and
the test test_migrate_env_var_support) state. -/
theorem default_config_env_table_name_divergence :
    (Config.default testEnv).postgres_schema testEnv = some "test_schema"
    ∧ (Config.default testEnv).table_name testEnv = "test_schema.test_migrations"
    ∧ ("test_schema.test_migrations" : String) ≠ "test_migrations" := by
  refine ⟨rfl, rfl, ?_⟩
  decide

/-- C2: for a PostgreSQL driver kind (case-insensitive postgres or
postgresql), qualified_table_name resolves the schema as the explicit
config value, else the call-time environment schema, else public, and the
table as the explicit config value, else the call-time environment table,
else _sqlx_migrations, and returns schema, a dot, then table. -/
theorem qualified_table_name_postgres_resolution (c : Config) (env : Env)
    (kind : String)
    (h : lowercase kind = "postgres" ∨ lowercase kind = "postgresql") :
    c.qualified_table_name env kind
      = ((c.drivers.postgres.schema.orElse fun _ => env.sqlx_migrations_schema).getD "public")
        ++ "." ++
        ((c.table_name_opt.orElse fun _ => env.sqlx_migrations_table).getD "_sqlx_migrations") := by
  unfold Config.qualified_table_name
  rw [if_pos h]
  cases c.drivers.postgres.schema <;> cases env.sqlx_migrations_schema <;>
    cases c.table_name_opt <;> cases env.sqlx_migrations_table <;>
    simp [Option.orElse]

/-- C2 witness: instantiated at the kind PostgreSQL (exercising the
case-insensitive match) on the empty configuration with only the
environment variables set. -/
theorem qualified_table_name_postgres_resolution_witness :
    (lowercase "PostgreSQL" = "postgres" ∨ lowercase "PostgreSQL" = "postgresql")
    ∧ emptyConfig.qualified_table_name testEnv "PostgreSQL"
      = ((emptyConfig.drivers.postgres.schema.orElse
            fun _ => testEnv.sqlx_migrations_schema).getD "public")
        ++ "." ++
        ((emptyConfig.table_name_opt.orElse
            fun _ => testEnv.sqlx_migrations_table).getD "_sqlx_migrations") :=
  ⟨Or.inr (by decide),
    qualified_table_name_postgres_resolution emptyConfig testEnv "PostgreSQL"
      (Or.inr (by decide))⟩

/-- C3: when the explicit table name is set, even to an already-qualified
string, and a schema is resolvable through postgres_schema, table_name
returns the literal concatenation of schema, a dot, and the stored table
name, so an already-qualified table name yields a double-qualified
string. -/
theorem table_name_double_qualification (c : Config) (env : Env) (s t : String)
    (hs : c.postgres_schema env = some s) (ht : c.table_name_opt = some t) :
    c.table_name env = s ++ "." ++ t := by
  unfold Config.table_name
  rw [hs, ht]

/-- C3 witness: an explicit table name that already contains a schema
separator becomes double-qualified. -/
theorem table_name_double_qualification_witness :
    ({ emptyConfig with
        table_name_opt := some "other_schema.table",
        drivers := { postgres := { schema := some "schema" } } } : Config).postgres_schema
        ⟨none, none⟩ = some "schema"
    ∧ ({ emptyConfig with
          table_name_opt := some "other_schema.table",
          drivers := { postgres := { schema := some "schema" } } } : Config).table_name_opt
        = some "other_schema.table"
    ∧ ({ emptyConfig with
          table_name_opt := some "other_schema.table",
          drivers := { postgres := { schema := some "schema" } } } : Config).table_name
        ⟨none, none⟩ = "schema" ++ "." ++ "other_schema.table" :=
  ⟨rfl, rfl, table_name_double_qualification _ _ _ _ rfl rfl⟩

/-- C4: for every driver kind whose lowercase form is neither postgres
nor postgresql, qualified_table_name equals table_name. -/
theorem qualified_table_name_non_postgres (c : Config) (env : Env) (kind : String)
    (h1 : lowercase kind ≠ "postgres") (h2 : lowercase kind ≠ "postgresql") :
    c.qualified_table_name env kind = c.table_name env := by
  unfold Config.qualified_table_name
  rw [if_neg]
  rintro (h | h)
  · exact h1 h
  · exact h2 h

/-- C4 witness: instantiated at the kind mysql on the test environment
and a configuration with an explicit schema. -/
theorem qualified_table_name_non_postgres_witness :
    (lowercase "mysql" ≠ "postgres") ∧ (lowercase "mysql" ≠ "postgresql")
    ∧ ({ emptyConfig with
          drivers := { postgres := { schema := some "my_migrations" } } } : Config).qualified_table_name
        testEnv "mysql"
      = ({ emptyConfig with
            drivers := { postgres := { schema := some "my_migrations" } } } : Config).table_name
          testEnv :=
  ⟨by decide, by decide,
    qualified_table_name_non_postgres _ testEnv "mysql" (by decide) (by decide)⟩

/-- C5: postgres_schema returns the explicit per-driver config value if
set, else the call-time environment schema value, else none; in
particular, when both are absent it returns none rather than the public
default. -/
theorem postgres_schema_never_defaults (c : Config) (env : Env) :
    c.postgres_schema env
      = (match c.drivers.postgres.schema with
         | some s => some s
         | none => env.sqlx_migrations_schema)
    ∧ Config.postgres_schema
        { c with drivers := { postgres := { schema := none } } }
        { env with sqlx_migrations_schema := none } = none := by
  constructor
  · cases h : c.drivers.postgres.schema <;> simp [Config.postgres_schema, h, Option.orElse]
  · simp [Config.postgres_schema, Option.orElse]

/-- C6: versioning inference over the ordered migration history: an
empty history infers Sequential; a single migration infers Sequential
exactly when its version is 1; with two or more migrations, the result is
Sequential exactly when the two most recent versions differ by 1, and
Timestamp otherwise; in particular the histories listed in the claim
resolve as stated. -/
theorem infer_versioning_rule :
    inferVersioning [] = .Sequential
    ∧ inferVersioning [1] = .Sequential
    ∧ inferVersioning [1, 2] = .Sequential
    ∧ inferVersioning [1, 5] = .Timestamp
    ∧ (∀ v : Int, inferVersioning [v]
        = if v = 1 then .Sequential else .Timestamp)
    ∧ (∀ (vs : List Int) (b a : Int),
        inferVersioning (vs ++ [b, a])
          = if (a - b).natAbs = 1 then .Sequential else .Timestamp) := by
  refine ⟨rfl, rfl, rfl, rfl, fun v => rfl, fun vs b a => ?_⟩
  simp [inferVersioning, List.reverse_append]

/-- C7: with both environment variables unset, no explicit table name and
no per-driver schema, table_name returns the constant _sqlx_migrations
and postgres_schema returns none, whatever the remaining fields hold. -/
theorem defaults_without_env (c : Config) :
    Config.table_name
        { c with table_name_opt := none,
                 drivers := { postgres := { schema := none } } }
        ⟨none, none⟩ = "_sqlx_migrations"
    ∧ Config.postgres_schema
        { c with table_name_opt := none,
                 drivers := { postgres := { schema := none } } }
        ⟨none, none⟩ = none := by
  exact ⟨rfl, rfl⟩

/-- C8: every resolver operation is total: on every configuration, every
environment state and every driver kind, each returns the value its
fallback chain determines (first disjunct or explicit match arm), never
an error; the ignored-character accessor passes the stored set
through. -/
theorem resolver_totality (c : Config) (env : Env) (kind : String) :
    c.migrations_dir
      = (match c.migrations_dir_opt with
         | some d => d
         | none => "migrations")
    ∧ c.postgres_schema env
      = (match c.drivers.postgres.schema, env.sqlx_migrations_schema with
         | some s, _ => some s
         | none, es => es)
    ∧ c.table_name env
      = (match c.postgres_schema env, c.table_name_opt with
         | some s, some t => s ++ "." ++ t
         | some s, none => s ++ "." ++ "_sqlx_migrations"
         | none, some t => t
         | none, none => "_sqlx_migrations")
    ∧ (c.qualified_table_name env kind = c.table_name env
       ∨ ∃ s t, c.qualified_table_name env kind = s ++ "." ++ t)
    ∧ c.to_resolve_config = c.ignored_chars := by
  refine ⟨?_, ?_, ?_, ?_, rfl⟩
  · cases h : c.migrations_dir_opt <;> simp [Config.migrations_dir, h]
  · cases h1 : c.drivers.postgres.schema <;> cases h2 : env.sqlx_migrations_schema <;>
      simp [Config.postgres_schema, Option.orElse, h1, h2]
  · cases h : c.postgres_schema env <;> cases ht : c.table_name_opt <;>
      simp [Config.table_name, h, ht]
  · unfold Config.qualified_table_name
    by_cases h : lowercase kind = "postgres" ∨ lowercase kind = "postgresql"
    · rw [if_pos h]
      exact Or.inr ⟨_, _, rfl⟩
    · rw [if_neg h]
      exact Or.inl rfl

/-- C9: for a non-PostgreSQL driver kind, when a schema is resolvable via
postgres_schema, qualified_table_name still returns a schema-qualified
name, because the fallback branch delegates to table_name, which applies
the resolved schema. -/
theorem qualified_table_name_non_postgres_still_qualified (c : Config) (env : Env)
    (kind : String) (s : String)
    (h1 : lowercase kind ≠ "postgres") (h2 : lowercase kind ≠ "postgresql")
    (hs : c.postgres_schema env = some s) :
    c.qualified_table_name env kind
      = s ++ "." ++ (c.table_name_opt.getD "_sqlx_migrations") := by
  unfold Config.qualified_table_name
  rw [if_neg (by rintro (h | h) <;> [exact h1 h; exact h2 h])]
  unfold Config.table_name
  rw [hs]
  cases c.table_name_opt <;> rfl

/-- C9 witness: kind mysql with a schema resolvable from the per-driver
configuration still yields a qualified name. -/
theorem qualified_table_name_non_postgres_still_qualified_witness :
    (lowercase "mysql" ≠ "postgres") ∧ (lowercase "mysql" ≠ "postgresql")
    ∧ ({ emptyConfig with
          drivers := { postgres := { schema := some "my_migrations" } } } : Config).postgres_schema
        ⟨none, none⟩ = some "my_migrations"
    ∧ ({ emptyConfig with
          drivers := { postgres := { schema := some "my_migrations" } } } : Config).qualified_table_name
        ⟨none, none⟩ "mysql"
      = "my_migrations" ++ "." ++
        (({ emptyConfig with
            drivers := { postgres := { schema := some "my_migrations" } } } : Config).table_name_opt.getD
          "_sqlx_migrations") :=
  ⟨by decide, by decide, rfl,
    qualified_table_name_non_postgres_still_qualified _ _ "mysql" "my_migrations"
      (by decide) (by decide) rfl⟩

/-- C10: table_name never reads the environment table variable at call
time: two environments agreeing on the schema variable give the same
table_name, and with no explicit table name and no resolvable schema the
result is the constant _sqlx_migrations even when the environment table
variable is set at call time. -/
theorem table_name_ignores_env_table (c : Config) (e1 e2 : Env)
    (h : e1.sqlx_migrations_schema = e2.sqlx_migrations_schema) :
    c.table_name e1 = c.table_name e2
    ∧ (c.table_name_opt = none → c.postgres_schema e1 = none →
        c.table_name e1 = "_sqlx_migrations") := by
  constructor
  · unfold Config.table_name
    rw [postgres_schema_depends_only_on_env_schema c e1 e2 h]
  · intro ht hs
    unfold Config.table_name
    rw [hs, ht]
    rfl

/-- C10 witness: two environments that differ only in the table variable
give the same table_name on a configuration with no explicit table name
and no schema, and that result is the constant even though the first
environment has the table variable set. -/
theorem table_name_ignores_env_table_witness :
    ((⟨some "from_env", none⟩ : Env).sqlx_migrations_schema
        = (⟨none, none⟩ : Env).sqlx_migrations_schema)
    ∧ (emptyConfig.table_name ⟨some "from_env", none⟩
        = emptyConfig.table_name ⟨none, none⟩
       ∧ (emptyConfig.table_name_opt = none →
           emptyConfig.postgres_schema ⟨some "from_env", none⟩ = none →
           emptyConfig.table_name ⟨some "from_env", none⟩ = "_sqlx_migrations")) :=
  ⟨rfl, table_name_ignores_env_table emptyConfig ⟨some "from_env", none⟩ ⟨none, none⟩ rfl⟩

end Sqlx
